import Mathlib

/-!
Shallow embedding of `flash_sandwich_trap.py` (flash-loan sandwich detector).

Python floats are modelled as rationals (all comparisons in the source are
order comparisons on decimal literals, which ℚ represents exactly); strings
(addresses, tokens, transaction hashes) are modelled as `String`.
-/

namespace FlashSandwich

/-- Dataclass `FlashLoan`: one flash-loan event. -/
structure FlashLoan where
  borrower : String
  token : String
  amount : ℚ
  tx_hash : String
deriving DecidableEq

/-- Dataclass `Swap`: one DEX swap event. -/
structure Swap where
  trader : String
  token_in : String
  token_out : String
  amount_in : ℚ
  amount_out : ℚ
  price_impact : ℚ
  tx_hash : String
deriving DecidableEq

/-- Dataclass `CollectedData`: the events collected for one block. -/
structure CollectedData where
  flash_loans : List FlashLoan
  swaps : List Swap
  block_number : Int
  timestamp : Int
deriving DecidableEq

/-- The three configuration parameters read in `FlashSandwichTrap.__init__`. -/
structure Config where
  min_price_impact : ℚ
  min_flash_loan_size : ℚ
  max_blocks_between : Int
deriving DecidableEq

/-- The defaults used by `config.get` in `__init__`:
`min_price_impact = 5.0`, `min_flash_loan_size = 100000`, `max_blocks_between = 1`. -/
def defaultConfig : Config :=
  { min_price_impact := 5
    min_flash_loan_size := 100000
    max_blocks_between := 1 }

/-- The line `recent_blocks = historical_data[-2:] if len(historical_data) >= 2
else historical_data` in `should_respond`. -/
def recentBlocks (historical_data : List CollectedData) : List CollectedData :=
  if historical_data.length ≥ 2 then
    historical_data.drop (historical_data.length - 2)
  else
    historical_data

/-- Method `FlashSandwichTrap.should_respond`: the detection pass.  The two
nested loops over blocks appending qualifying events are rendered as
`flatMap`/`filter`; the pairwise loop with early `return True` is rendered as
`any`/`any`. -/
def should_respond (cfg : Config) (historical_data : List CollectedData) : Bool :=
  if historical_data.length < 1 then false
  else
    let recent_blocks := recentBlocks historical_data
    let flash_loans := recent_blocks.flatMap
      (fun block => block.flash_loans.filter
        (fun loan => decide (loan.amount ≥ cfg.min_flash_loan_size)))
    if flash_loans.isEmpty then false
    else
      let high_impact_swaps := recent_blocks.flatMap
        (fun block => block.swaps.filter
          (fun swap => decide (swap.price_impact ≥ cfg.min_price_impact)))
      if high_impact_swaps.isEmpty then false
      else
        flash_loans.any (fun loan =>
          high_impact_swaps.any (fun swap =>
            loan.tx_hash == swap.tx_hash || loan.borrower == swap.trader))

/-- An entry of the alert's `flash_loans` list (the dict
`{'borrower': ..., 'amount': ..., 'tx': ...}`). -/
structure LoanEntry where
  borrower : String
  amount : ℚ
  tx : String
deriving DecidableEq

/-- An entry of the alert's `high_impact_swaps` list (the dict
`{'trader': ..., 'price_impact': ..., 'tx': ...}`). -/
structure SwapEntry where
  trader : String
  price_impact : ℚ
  tx : String
deriving DecidableEq

/-- The dict returned by `FlashSandwichTrap.get_alert_details`. -/
structure Alert where
  attack_type : String
  severity : String
  flash_loans : List LoanEntry
  high_impact_swaps : List SwapEntry
  blocks_analyzed : Nat
deriving DecidableEq

/-- Method `FlashSandwichTrap.get_alert_details`.  Here `historical_data[-2:]`
is `drop (length - 2)`; the two `extend` calls over the per-block
comprehensions are `flatMap` of `map` over `filter`. -/
def get_alert_details (cfg : Config) (historical_data : List CollectedData) : Alert :=
  let recent_blocks := historical_data.drop (historical_data.length - 2)
  { attack_type := "flash_loan_sandwich"
    severity := "HIGH"
    flash_loans := recent_blocks.flatMap (fun block =>
      (block.flash_loans.filter
        (fun loan => decide (loan.amount ≥ cfg.min_flash_loan_size))).map
        (fun loan => ⟨loan.borrower, loan.amount, loan.tx_hash⟩))
    high_impact_swaps := recent_blocks.flatMap (fun block =>
      (block.swaps.filter
        (fun swap => decide (swap.price_impact ≥ cfg.min_price_impact))).map
        (fun swap => ⟨swap.trader, swap.price_impact, swap.tx_hash⟩))
    blocks_analyzed := historical_data.length }

/-- The dict returned by `SimpleFlashSandwichTrap.collect`: block number,
loan amounts, price impacts. -/
structure SimpleBlock where
  block : Int
  flash_loans : List ℚ
  price_impacts : List ℚ
deriving DecidableEq

/-- Method `SimpleFlashSandwichTrap.should_respond` with its hard-coded
thresholds (`flash_loan_threshold = 100000`, `price_impact_threshold = 5.0`). -/
def simple_should_respond (last_blocks : List SimpleBlock) : Bool :=
  if last_blocks.length < 1 then false
  else
    let recent := if last_blocks.length ≥ 2 then
        last_blocks.drop (last_blocks.length - 2)
      else last_blocks
    let has_large_loan := recent.any (fun block =>
      block.flash_loans.any (fun loan => decide (loan ≥ (100000 : ℚ))))
    let has_price_impact := recent.any (fun block =>
      block.price_impacts.any (fun impact => decide (impact ≥ (5 : ℚ))))
    has_large_loan && has_price_impact

/-- All flash loans in the blocks the detection pass actually looks at. -/
def lookbackLoans (w : List CollectedData) : List FlashLoan :=
  (recentBlocks w).flatMap (fun block => block.flash_loans)

/-- All swaps in the blocks the detection pass actually looks at. -/
def lookbackSwaps (w : List CollectedData) : List Swap :=
  (recentBlocks w).flatMap (fun block => block.swaps)

/-- Modelled from the spec, for comparison with the code: the Correlation
Window operation `recent(n)`, "the last `min(n, len)` BlockBundles in
ascending order". -/
def spec_recent (n : Nat) (w : List CollectedData) : List CollectedData :=
  w.drop (w.length - n)

/-- Modelled from the spec, for comparison with the code: the Detector
algorithm of the spec, whose look-back is `recent(max_blocks_between + 1)`
instead of the hard-coded last two bundles, followed by the same threshold
filters and pairwise same-transaction / same-actor relation. -/
def spec_should_respond (cfg : Config) (w : List CollectedData) : Bool :=
  let recent := spec_recent (cfg.max_blocks_between + 1).toNat w
  let qualifying_loans := recent.flatMap (fun block =>
    block.flash_loans.filter (fun loan => decide (loan.amount ≥ cfg.min_flash_loan_size)))
  let qualifying_swaps := recent.flatMap (fun block =>
    block.swaps.filter (fun swap => decide (swap.price_impact ≥ cfg.min_price_impact)))
  qualifying_loans.any (fun loan =>
    qualifying_swaps.any (fun swap =>
      loan.tx_hash == swap.tx_hash || loan.borrower == swap.trader))

/-- Projection of a structured per-block bundle to the loan-amount /
price-impact representation consumed by `SimpleFlashSandwichTrap`
(the shape built by `SimpleFlashSandwichTrap.collect`). -/
def toSimpleBlock (b : CollectedData) : SimpleBlock :=
  { block := b.block_number
    flash_loans := b.flash_loans.map FlashLoan.amount
    price_impacts := b.swaps.map Swap.price_impact }

/-- Sequential composition "call `should_respond`, then `get_alert_details`",
with the caller's window threaded through explicitly.  Both Python methods
only read `historical_data` (slicing and comprehensions build fresh lists;
no mutating call is made on the input), so the embedding returns the window
component unchanged. -/
def detect_then_alert (cfg : Config) (w : List CollectedData) :
    (Bool × Alert) × List CollectedData :=
  ((should_respond cfg w, get_alert_details cfg w), w)

/-- Block 1000 of the usage example in `main`: one small loan (50000) and one
low-impact swap (0.5%). -/
def normal_block : CollectedData :=
  { flash_loans := [⟨"0xUser1", "USDC", 50000, "0xTx1"⟩]
    swaps := [⟨"0xUser2", "ETH", "USDC", 10, 20000, 1/2, "0xTx2"⟩]
    block_number := 1000
    timestamp := 1000 }

/-- Block 1001 of the usage example in `main` (Scenario B): a 500000 loan and
an 8.5%-impact swap, both with `tx_hash = "0xTx3"`. -/
def attack_block : CollectedData :=
  { flash_loans := [⟨"0xAttacker", "USDC", 500000, "0xTx3"⟩]
    swaps := [⟨"0xAttacker", "USDC", "ETH", 500000, 250, 17/2, "0xTx3"⟩]
    block_number := 1001
    timestamp := 1001 }

/-- A block with no events at all. -/
def empty_block : CollectedData :=
  { flash_loans := []
    swaps := []
    block_number := 1002
    timestamp := 1002 }

/-- A block holding a qualifying loan and a qualifying swap that share a
transaction hash but have different actors. -/
def tx_attack_block : CollectedData :=
  { flash_loans := [⟨"0xA", "USDC", 500000, "0xT"⟩]
    swaps := [⟨"0xB", "USDC", "ETH", 500000, 250, 9, "0xT"⟩]
    block_number := 1000
    timestamp := 0 }

/-- A block holding only a qualifying loan by `"0xA"` (tx `"0xT1"`). -/
def loan_only_block : CollectedData :=
  { flash_loans := [⟨"0xA", "USDC", 500000, "0xT1"⟩]
    swaps := []
    block_number := 1000
    timestamp := 0 }

/-- A block holding only a qualifying swap by `"0xA"` (tx `"0xT2"`). -/
def swap_only_block : CollectedData :=
  { flash_loans := []
    swaps := [⟨"0xA", "USDC", "ETH", 500000, 250, 9, "0xT2"⟩]
    block_number := 1001
    timestamp := 0 }

/-- A block holding a qualifying loan and a qualifying swap that share
neither transaction hash nor actor. -/
def unrelated_block : CollectedData :=
  { flash_loans := [⟨"0xA", "USDC", 500000, "0xT1"⟩]
    swaps := [⟨"0xB", "USDC", "ETH", 500000, 250, 9, "0xT2"⟩]
    block_number := 1000
    timestamp := 0 }

/-- A configuration with `max_blocks_between = 2` and the default thresholds. -/
def mbb2Config : Config :=
  { min_price_impact := 5
    min_flash_loan_size := 100000
    max_blocks_between := 2 }

/-! ## Helper lemmas -/

theorem recentBlocks_eq_drop (w : List CollectedData) :
    recentBlocks w = w.drop (w.length - 2) := by
  unfold recentBlocks
  split
  · rfl
  · next h =>
    have : w.length - 2 = 0 := by omega
    simp [this]

theorem should_respond_eq_any (cfg : Config) (w : List CollectedData) :
    should_respond cfg w =
      ((recentBlocks w).flatMap (fun block => block.flash_loans.filter
          (fun loan => decide (loan.amount ≥ cfg.min_flash_loan_size)))).any
        (fun loan =>
          ((recentBlocks w).flatMap (fun block => block.swaps.filter
              (fun swap => decide (swap.price_impact ≥ cfg.min_price_impact)))).any
            (fun swap =>
              loan.tx_hash == swap.tx_hash || loan.borrower == swap.trader)) := by
  unfold should_respond
  split
  · next h =>
    have hw : w = [] := by
      cases w with
      | nil => rfl
      | cons a l => simp at h
    subst hw
    simp [recentBlocks]
  · dsimp only
    split
    · next h =>
      rw [List.isEmpty_iff] at h
      simp [h]
    · split
      · next h =>
        rw [List.isEmpty_iff] at h
        simp [h]
      · rfl

theorem should_respond_iff (cfg : Config) (w : List CollectedData) :
    should_respond cfg w = true ↔
      ∃ loan ∈ lookbackLoans w, ∃ swap ∈ lookbackSwaps w,
        loan.amount ≥ cfg.min_flash_loan_size ∧
        swap.price_impact ≥ cfg.min_price_impact ∧
        (loan.tx_hash = swap.tx_hash ∨ loan.borrower = swap.trader) := by
  rw [should_respond_eq_any]
  simp only [List.any_eq_true, List.mem_flatMap, List.mem_filter,
    decide_eq_true_eq, Bool.or_eq_true, beq_iff_eq, lookbackLoans, lookbackSwaps]
  constructor
  · rintro ⟨loan, ⟨b, hb, hl, hla⟩, swap, ⟨b2, hb2, hs, hsa⟩, hrel⟩
    exact ⟨loan, ⟨b, hb, hl⟩, swap, ⟨b2, hb2, hs⟩, hla, hsa, hrel⟩
  · rintro ⟨loan, ⟨b, hb, hl⟩, swap, ⟨b2, hb2, hs⟩, hla, hsa, hrel⟩
    exact ⟨loan, ⟨b, hb, hl, hla⟩, swap, ⟨b2, hb2, hs, hsa⟩, hrel⟩

theorem simple_should_respond_iff (lb : List SimpleBlock) :
    simple_should_respond lb = true ↔
      ((∃ b ∈ lb.drop (lb.length - 2), ∃ a ∈ b.flash_loans, a ≥ (100000 : ℚ)) ∧
       (∃ b ∈ lb.drop (lb.length - 2), ∃ i ∈ b.price_impacts, i ≥ (5 : ℚ))) := by
  unfold simple_should_respond
  split
  · next h =>
    have hw : lb = [] := by
      cases lb with
      | nil => rfl
      | cons a l => simp at h
    subst hw
    simp
  · dsimp only
    have hrec : (if lb.length ≥ 2 then lb.drop (lb.length - 2) else lb)
        = lb.drop (lb.length - 2) := by
      split
      · rfl
      · next h =>
        have : lb.length - 2 = 0 := by omega
        simp [this]
    rw [hrec]
    simp [List.any_eq_true, decide_eq_true_eq]

/-! ## Claims -/

/-- C1 (amended): the detection pass inspects exactly the last
`min(2, length of window)` bundles, regardless of `max_blocks_between`: the
inspected slice is the suffix `drop (length - 2)` of the window, it has
length `min 2 (length of window)`, and `should_respond` is true exactly when
some loan and some swap inside that slice meet their thresholds and share a
transaction hash or an actor. -/
theorem claim_C1_lookback_last_two (cfg : Config) (w : List CollectedData) :
    recentBlocks w = w.drop (w.length - 2) ∧
    (recentBlocks w).length = min 2 w.length ∧
    (should_respond cfg w = true ↔
      ∃ loan ∈ lookbackLoans w, ∃ swap ∈ lookbackSwaps w,
        loan.amount ≥ cfg.min_flash_loan_size ∧
        swap.price_impact ≥ cfg.min_price_impact ∧
        (loan.tx_hash = swap.tx_hash ∨ loan.borrower = swap.trader)) := by
  refine ⟨recentBlocks_eq_drop w, ?_, should_respond_iff cfg w⟩
  rw [recentBlocks_eq_drop, List.length_drop]
  omega

/-- C1 (counterexample): with `max_blocks_between = 2` the claim predicts
that the third-most-recent bundle is inspected; on a window whose
third-most-recent bundle holds a same-transaction qualifying pair and whose
last two bundles are empty, the spec-modelled detector (look-back
`max_blocks_between + 1`) fires but the code returns `false`. -/
theorem claim_C1_counterexample :
    should_respond mbb2Config [tx_attack_block, empty_block, empty_block] = false ∧
    spec_should_respond mbb2Config [tx_attack_block, empty_block, empty_block] = true :=
  ⟨by rfl, by rfl⟩

/-- C2 (amended): for every non-empty window, the alert's severity is the
constant `"HIGH"` and `blocks_analyzed` is the TOTAL length of the window
(`len(historical_data)`), not the number of bundles inspected. -/
theorem claim_C2_alert_fields (cfg : Config) (w : List CollectedData)
    (_hw : w ≠ []) :
    (get_alert_details cfg w).severity = "HIGH" ∧
    (get_alert_details cfg w).blocks_analyzed = w.length :=
  ⟨rfl, rfl⟩

theorem claim_C2_witness :
    (get_alert_details defaultConfig [empty_block]).severity = "HIGH" ∧
    (get_alert_details defaultConfig [empty_block]).blocks_analyzed = 1 :=
  claim_C2_alert_fields defaultConfig [empty_block] (List.cons_ne_nil _ _)

/-- C2 (counterexample): on a window of three bundles the alert reports
`blocks_analyzed = 3`, while the number of bundles actually inspected,
`len(recent(max_blocks_between + 1))` with the default configuration, is 2. -/
theorem claim_C2_counterexample :
    (get_alert_details defaultConfig [empty_block, empty_block, empty_block]).blocks_analyzed = 3 ∧
    (spec_recent (defaultConfig.max_blocks_between + 1).toNat
      [empty_block, empty_block, empty_block]).length = 2 :=
  ⟨rfl, rfl⟩

/-- C3: monotonicity in the thresholds.  For configurations agreeing on
`max_blocks_between`, if `should_respond` is false under the lower
thresholds it stays false under any pointwise-higher thresholds. -/
theorem claim_C3_monotone (cfg1 cfg2 : Config) (w : List CollectedData)
    (_hmb : cfg1.max_blocks_between = cfg2.max_blocks_between)
    (hsize : cfg1.min_flash_loan_size ≤ cfg2.min_flash_loan_size)
    (himp : cfg1.min_price_impact ≤ cfg2.min_price_impact)
    (hfalse : should_respond cfg1 w = false) :
    should_respond cfg2 w = false := by
  by_contra hne
  rw [Bool.not_eq_false, should_respond_iff] at hne
  obtain ⟨loan, hl, swap, hs, hla, hsa, hrel⟩ := hne
  have : should_respond cfg1 w = true := by
    rw [should_respond_iff]
    exact ⟨loan, hl, swap, hs, le_trans hsize hla, le_trans himp hsa, hrel⟩
  rw [hfalse] at this
  exact Bool.false_ne_true this

theorem claim_C3_witness :
    should_respond ⟨6, 200000, 1⟩ [empty_block] = false :=
  claim_C3_monotone defaultConfig ⟨6, 200000, 1⟩ [empty_block]
    rfl (by decide) (by decide) (by rfl)

/-- C4: on the empty window `should_respond` returns `false` for every
configuration; the empty window is a defined false result, not an error. -/
theorem claim_C4_empty_window (cfg : Config) :
    should_respond cfg [] = false :=
  rfl

/-- C5: same-transaction sufficiency.  A qualifying loan and a qualifying
swap in the look-back window sharing a transaction hash force
`should_respond` to return `true`, whatever their actors. -/
theorem claim_C5_same_tx (cfg : Config) (w : List CollectedData)
    (loan : FlashLoan) (swap : Swap)
    (hl : loan ∈ lookbackLoans w)
    (hla : loan.amount ≥ cfg.min_flash_loan_size)
    (hs : swap ∈ lookbackSwaps w)
    (hsa : swap.price_impact ≥ cfg.min_price_impact)
    (htx : loan.tx_hash = swap.tx_hash) :
    should_respond cfg w = true := by
  rw [should_respond_iff]
  exact ⟨loan, hl, swap, hs, hla, hsa, Or.inl htx⟩

theorem claim_C5_witness :
    should_respond defaultConfig [tx_attack_block] = true :=
  claim_C5_same_tx defaultConfig [tx_attack_block]
    ⟨"0xA", "USDC", 500000, "0xT"⟩
    ⟨"0xB", "USDC", "ETH", 500000, 250, 9, "0xT"⟩
    (by decide) (by decide) (by decide) (by decide) rfl

/-- C6: same-actor sufficiency.  A qualifying loan whose borrower equals the
trader of a qualifying swap in the look-back window forces `should_respond`
to return `true`, even with different transaction hashes. -/
theorem claim_C6_same_actor (cfg : Config) (w : List CollectedData)
    (loan : FlashLoan) (swap : Swap)
    (hl : loan ∈ lookbackLoans w)
    (hla : loan.amount ≥ cfg.min_flash_loan_size)
    (hs : swap ∈ lookbackSwaps w)
    (hsa : swap.price_impact ≥ cfg.min_price_impact)
    (hactor : loan.borrower = swap.trader) :
    should_respond cfg w = true := by
  rw [should_respond_iff]
  exact ⟨loan, hl, swap, hs, hla, hsa, Or.inr hactor⟩

theorem claim_C6_witness :
    should_respond defaultConfig [loan_only_block, swap_only_block] = true :=
  claim_C6_same_actor defaultConfig [loan_only_block, swap_only_block]
    ⟨"0xA", "USDC", 500000, "0xT1"⟩
    ⟨"0xA", "USDC", "ETH", 500000, 250, 9, "0xT2"⟩
    (by decide) (by decide) (by decide) (by decide) rfl

/-- C7: Scenario B.  On the two-block example window (small events in block
1000; a 500000 loan and an 8.5% swap sharing tx `"0xTx3"` in block 1001),
the default configuration fires, and the alert lists exactly one qualifying
loan and one qualifying swap, both with tx `"0xTx3"`. -/
theorem claim_C7_scenario_b :
    should_respond defaultConfig [normal_block, attack_block] = true ∧
    (get_alert_details defaultConfig [normal_block, attack_block]).flash_loans
      = [⟨"0xAttacker", 500000, "0xTx3"⟩] ∧
    (get_alert_details defaultConfig [normal_block, attack_block]).high_impact_swaps
      = [⟨"0xAttacker", 17/2, "0xTx3"⟩] := by
  refine ⟨?_, ?_, ?_⟩ <;>
    norm_num [should_respond, get_alert_details, recentBlocks,
      normal_block, attack_block, defaultConfig]

/-- C8 (amended): the "simple" variant computes only the threshold half of
the decision, so it is implied by, but not equivalent to, the full detector:
whenever `FlashSandwichTrap.should_respond` (default configuration) fires on
a structured window, `SimpleFlashSandwichTrap.should_respond` fires on its
loan-amount / price-impact projection. -/
theorem claim_C8_full_implies_simple (w : List CollectedData)
    (h : should_respond defaultConfig w = true) :
    simple_should_respond (w.map toSimpleBlock) = true := by
  rw [should_respond_iff] at h
  obtain ⟨loan, hl, swap, hs, hla, hsa, -⟩ := h
  rw [lookbackLoans, recentBlocks_eq_drop] at hl
  rw [lookbackSwaps, recentBlocks_eq_drop] at hs
  obtain ⟨b, hb, hlb⟩ := List.mem_flatMap.mp hl
  obtain ⟨b2, hb2, hsb⟩ := List.mem_flatMap.mp hs
  rw [simple_should_respond_iff, List.length_map, ← List.map_drop]
  constructor
  · exact ⟨toSimpleBlock b, List.mem_map_of_mem _ hb,
      loan.amount, List.mem_map_of_mem _ hlb, hla⟩
  · exact ⟨toSimpleBlock b2, List.mem_map_of_mem _ hb2,
      swap.price_impact, List.mem_map_of_mem _ hsb, hsa⟩

theorem claim_C8_witness :
    simple_should_respond ([tx_attack_block].map toSimpleBlock) = true :=
  claim_C8_full_implies_simple [tx_attack_block] (by rfl)

/-- C8 (counterexample): a window whose only qualifying loan and qualifying
swap share neither transaction hash nor actor makes the full detector return
`false` while the simple variant returns `true` on its projection, so the
two variants do not compute the same decision. -/
theorem claim_C8_counterexample :
    simple_should_respond ([unrelated_block].map toSimpleBlock) = true ∧
    should_respond defaultConfig [unrelated_block] = false :=
  ⟨by rfl, by rfl⟩

/-- C9: purity and idempotence.  Both methods only read the window (slices
and comprehensions build fresh lists), so running "detect, then build the
alert" returns the window unchanged, and running it a second time on the
returned window yields the identical boolean and the identical alert. -/
theorem claim_C9_pure_idempotent (cfg : Config) (w : List CollectedData) :
    (detect_then_alert cfg w).2 = w ∧
    detect_then_alert cfg ((detect_then_alert cfg w).2) = detect_then_alert cfg w :=
  ⟨rfl, rfl⟩

/-- C10: `get_alert_details` is total; on every window it carries the fixed
attack type and severity, and on the empty window it returns the alert with
empty qualifying lists and `blocks_analyzed = 0` rather than failing. -/
theorem claim_C10_alert_total (cfg : Config) :
    (∀ w : List CollectedData,
      (get_alert_details cfg w).attack_type = "flash_loan_sandwich" ∧
      (get_alert_details cfg w).severity = "HIGH") ∧
    get_alert_details cfg [] =
      { attack_type := "flash_loan_sandwich"
        severity := "HIGH"
        flash_loans := []
        high_impact_swaps := []
        blocks_analyzed := 0 } :=
  ⟨fun _ => ⟨rfl, rfl⟩, rfl⟩

end FlashSandwich
